import Mathlib

/-!
Shallow embedding of the Dual-Agent-Debate repository (two Python source
files: `To_Implement.py`, the memory-augmented debate module, and `app.py`,
the earlier prototype).  Machine floats are modelled by rationals (the only
operations performed on confidences are comparisons, `min`/`max` clamping and
verbatim storage, all exact), Python `int` by `Int`, Python lists by `List`,
Python strings by `String`.  The external LLM collaborator is modelled as an
oracle supplying each structured response; a response whose confidence field
makes `float(...)` raise is modelled by `none`.
-/

namespace ToImplement

/-- Configuration constant `MAX_ROUNDS = 8` of `To_Implement.py`. -/
def MAX_ROUNDS : Int := 8

/-- Configuration constant `MEMORY_CAP = 8` of `To_Implement.py`. -/
def MEMORY_CAP : Nat := 8

/-- Persona profile: the four descriptive attributes consumed by prompts
(`title`, `beliefs`, `style`, `goal`).  The Python dicts carry further keys
(such as `default_confidence_range`) that no node reads and no claim
mentions; they are omitted. -/
structure Persona where
  title : String
  beliefs : List String
  style : String
  goal : String
deriving Repr, DecidableEq

/-- Structured response returned by the generation collaborator for one
turn: the argument text plus the raw confidence.  `rawConf = some q` models
a value that Python `float(...)` converts to the number `q`; `rawConf =
none` models any value for which `float(...)` raises (`None`, a non-numeric
string, a malformed value). -/
structure AgentResponse where
  answer : String
  rawConf : Option ℚ
deriving Repr

/-- The `GraphState` TypedDict of `To_Implement.py`. -/
structure GraphState where
  question : String
  numberOfRounds : Int
  pro_answer : String
  con_challenge : String
  final_answer : String
  pro_confidence : ℚ
  con_confidence : ℚ
  final_confidence : ℚ
  pro_memory : List String
  con_memory : List String
  debate_history : List String
  pro_persona : Persona
  con_persona : Persona
  moderator_persona : Persona
deriving Repr

/-- Python slice `mem_list[-cap:]` for a nonnegative `cap`: for `cap = 0`
the slice `[-0:]` is `[0:]`, the whole list; for `cap ≥ 1` it keeps the
last `min cap length` elements. -/
def pyslice_last {α : Type} (l : List α) (cap : Nat) : List α :=
  if cap = 0 then l else l.drop (l.length - cap)

/-- Embedding of `cap_memory_list` (`To_Implement.py` lines 111-115):
`if not mem_list: return []` then `return mem_list[-cap:]`. -/
def cap_memory_list (mem_list : List String) (cap : Nat) : List String :=
  if mem_list = [] then [] else pyslice_last mem_list cap

/-- Embedding of `summarize_round_summary` (lines 118-120): the f-string
`Round (round_idx): Pro -> (pro_text[:180]) | Con -> (con_text[:180])`. -/
def summarize_round_summary (pro_text con_text : String) (round_idx : Int) : String :=
  "Round " ++ toString round_idx ++ ": Pro -> " ++ pro_text.take 180
    ++ " | Con -> " ++ con_text.take 180

/-- Embedding of the confidence repair block duplicated in each node
(lines 257-262, 298-302, 346-350): `try: conf = float(raw); conf =
max(0.0, min(1.0, conf)) except Exception: conf = fallback`.  The `try`
covers only this conversion, so the function is total. -/
def normalize_confidence (raw : Option ℚ) (fallback : ℚ) : ℚ :=
  match raw with
  | some v => max 0 (min 1 v)
  | none => fallback

/-- Request record rendered by `proNode` (lines 242-253): `last_con =
state["con_challenge"] or "(none)"` (the empty string is the only falsy
string) and `pro_memory` joined with newlines, or `"(none)"` when the list
is empty. -/
structure ProInputs where
  question : String
  last_con : String
  pro_memory : String
  persona : Persona
deriving Repr

/-- Prompt inputs that `proNode` sends to the generation collaborator. -/
def pro_prompt_inputs (s : GraphState) : ProInputs :=
  { question := s.question
    last_con := if s.con_challenge = "" then "(none)" else s.con_challenge
    pro_memory := if s.pro_memory = [] then "(none)"
                  else String.intercalate "\n" s.pro_memory
    persona := s.pro_persona }

/-- Embedding of `proNode` (lines 234-273) given the collaborator response.
LangGraph merges the returned partial dict into the state, so the node is a
record update touching exactly `pro_answer`, `pro_confidence` and
`pro_memory`; `snippet = (response.pro_answer or "").strip()`. -/
def proNode (s : GraphState) (r : AgentResponse) : GraphState :=
  let conf := normalize_confidence r.rawConf 0.75
  let snippet := r.answer.trim
  let updated_pro_memory := cap_memory_list (s.pro_memory ++ [snippet]) MEMORY_CAP
  { s with pro_answer := r.answer, pro_confidence := conf,
           pro_memory := updated_pro_memory }

/-- Embedding of `conNode` (lines 276-322): updates `con_challenge`,
`con_confidence`, `con_memory`, increments `numberOfRounds`, and appends a
round summary to `debate_history` capped at 64. -/
def conNode (s : GraphState) (r : AgentResponse) : GraphState :=
  let conf := normalize_confidence r.rawConf 0.7
  let snippet := r.answer.trim
  let updated_con_memory := cap_memory_list (s.con_memory ++ [snippet]) MEMORY_CAP
  let next_round := s.numberOfRounds + 1
  let round_summary := summarize_round_summary s.pro_answer snippet next_round
  let updated_history := cap_memory_list (s.debate_history ++ [round_summary]) 64
  { s with con_challenge := r.answer, con_confidence := conf,
           numberOfRounds := next_round, con_memory := updated_con_memory,
           debate_history := updated_history }

/-- Embedding of `moderatorNode` (lines 325-356): sets `final_answer` and
the normalized `final_confidence` (fallback 0.8); nothing else changes. -/
def moderatorNode (s : GraphState) (r : AgentResponse) : GraphState :=
  let conf := normalize_confidence r.rawConf 0.8
  { s with final_answer := r.answer, final_confidence := conf }

/-- Embedding of `condition` (lines 360-367): route to the moderator when
`state.get("numberOfRounds", 0) >= MAX_ROUNDS`, else back to the Pro node. -/
def condition (s : GraphState) : String :=
  if MAX_ROUNDS ≤ s.numberOfRounds then "moderatorNode" else "proNode"

/-- Persona constant `PRO_PERSONA` (lines 77-86). -/
def PRO_PERSONA : Persona :=
  { title := "The Optimistic Technologist"
    beliefs := ["AI is a transformative tool that can amplify human capabilities",
                "Progress paired with governance is the right path"]
    style := "confident, visionary, cites innovation & benefit examples"
    goal := "Argue that AI can be net-positive with safeguards" }

/-- Persona constant `CON_PERSONA` (lines 88-97). -/
def CON_PERSONA : Persona :=
  { title := "The Skeptical Ethicist"
    beliefs := ["AI can produce significant harms if oversight is weak",
                "We must prioritize safety and fairness"]
    style := "cautious, evidence-oriented, highlights risks and edge cases"
    goal := "Expose risks and push for strong safeguards" }

/-- Persona constant `MODERATOR_PERSONA` (lines 99-107). -/
def MODERATOR_PERSONA : Persona :=
  { title := "The Policy-Focused Mediator"
    beliefs := ["Balance between innovation and safety is required",
                "Policy + technical measures yield the best outcomes"]
    style := "neutral, policy-aware, synthesis-first"
    goal := "Produce a balanced, implementable conclusion" }

/-- The fresh `initial_state` built in the `__main__` block (lines 387-406):
empty texts, zero counters and confidences, empty memories and history. -/
def initial_state : GraphState :=
  { question := "Is AI safe for humanity?"
    numberOfRounds := 0
    pro_answer := ""
    con_challenge := ""
    final_answer := ""
    pro_confidence := 0
    con_confidence := 0
    final_confidence := 0
    pro_memory := []
    con_memory := []
    debate_history := []
    pro_persona := PRO_PERSONA
    con_persona := CON_PERSONA
    moderator_persona := MODERATOR_PERSONA }

end ToImplement

namespace App

/-- The `GraphState` TypedDict of `app.py`.  The annotations declare the
confidence fields as floats, but `proNode` and `conNode` store the string
fields of the pydantic outputs verbatim (TypedDict annotations are not
enforced at runtime), so the values that actually flow are strings; the
moderator confidence is a pydantic float stored verbatim. -/
structure GraphState where
  question : String
  pro_answer : String
  con_challenge : String
  final_answer : String
  numberOfRounds : Int
  pro_confidence : String
  con_confidence : String
  final_confidence : ℚ
deriving Repr

/-- Structured output of the app.py Pro and Con agents: both fields are
declared `str` in the pydantic models. -/
structure AgentResponse where
  answer : String
  conf : String
deriving Repr

/-- Structured output of the app.py moderator: `moderator_confidence` is
declared `float`. -/
structure ModeratorResponse where
  answer : String
  conf : ℚ
deriving Repr

/-- Embedding of `condition` in `app.py` (lines 86-89): route to the
moderator exactly when `state["numberOfRounds"] == 8`. -/
def condition (s : GraphState) : String :=
  if s.numberOfRounds = 8 then "moderatorNode" else "proNode"

/-- Prompt inputs rendered by the app.py `proNode` (line 93): `last_con`
is `state["con_challenge"]` verbatim, with no sentinel substitution. -/
structure ProInputs where
  question : String
  last_con : String
deriving Repr

/-- Request record that the app.py `proNode` sends to the collaborator. -/
def pro_prompt_inputs (s : GraphState) : ProInputs :=
  { question := s.question, last_con := s.con_challenge }

/-- Embedding of the app.py `proNode` (lines 91-96): stores the response
fields verbatim, with no normalization or clamping. -/
def proNode (s : GraphState) (r : AgentResponse) : GraphState :=
  { s with pro_answer := r.answer, pro_confidence := r.conf }

/-- Embedding of the app.py `conNode` (lines 99-104): increments the round
counter and stores the response fields verbatim. -/
def conNode (s : GraphState) (r : AgentResponse) : GraphState :=
  { s with numberOfRounds := s.numberOfRounds + 1,
           con_challenge := r.answer, con_confidence := r.conf }

/-- Embedding of the app.py `moderatorNode` (lines 107-118): stores the
response fields verbatim; the float confidence is not clamped. -/
def moderatorNode (s : GraphState) (r : ModeratorResponse) : GraphState :=
  { s with final_answer := r.answer, final_confidence := r.conf }

/-- The initial inputs dict of `app.py` (line 134); keys absent from the
dict are modelled by the neutral defaults that are overwritten before any
read in a normal run. -/
def inputs : GraphState :=
  { question := "Is AI safe for humanity?"
    pro_answer := ""
    con_challenge := ""
    final_answer := ""
    numberOfRounds := 0
    pro_confidence := ""
    con_confidence := ""
    final_confidence := 0 }

end App

namespace ToImplement

/-- Name of a graph node executed during a run, used to record traces. -/
inductive NodeTag where
  | pro
  | con
  | moderator
deriving Repr, DecidableEq

/-- One arbitrary node application, used to quantify over turn sequences. -/
inductive Turn where
  | pro (r : AgentResponse)
  | con (r : AgentResponse)
  | moderator (r : AgentResponse)

/-- Application of a turn to the debate state. -/
def applyTurn (s : GraphState) : Turn → GraphState
  | .pro r => proNode s r
  | .con r => conNode s r
  | .moderator r => moderatorNode s r

/-- Predicate selecting Con turns in a turn sequence. -/
def Turn.isCon : Turn → Bool
  | .con _ => true
  | _ => false

/-- Loop of the compiled graph, generalized over the round limit `mR`
(the repository hard-codes `MAX_ROUNDS`): run `proNode` then `conNode`,
consume two oracle responses, and follow the conditional edge computed by
the `condition` test; `fuel` is an upper bound on the number of exchanges
still to run, `k` the index of the next oracle consultation.  Returns the
state after the exiting Con turn, the trace of executed agent nodes, and
the next oracle index. -/
def debateLoop (mR : Int) (oracle : Nat → AgentResponse) :
    Nat → GraphState → Nat → GraphState × List NodeTag × Nat
  | 0, s, k => (s, [], k)
  | fuel + 1, s, k =>
    let s1 := proNode s (oracle k)
    let s2 := conNode s1 (oracle (k + 1))
    if mR ≤ s2.numberOfRounds then (s2, [.pro, .con], k + 2)
    else
      let rest := debateLoop mR oracle fuel s2 (k + 2)
      (rest.1, .pro :: .con :: rest.2.1, rest.2.2)

/-- Modelled from the spec: the `run_debate` entry point with an explicit
`max_rounds` parameter (the repository itself only exposes
`graph.invoke(initial_state)` with the hard-coded `MAX_ROUNDS`; the graph
wiring of lines 370-381 is exactly this control flow: START to Pro, Pro to
Con, conditional edge after Con, moderator, END).  The fuel given to the
loop is one more than the remaining round budget, which the exactness
lemma shows is always sufficient. -/
def runDebate (mR : Int) (oracle : Nat → AgentResponse) (s : GraphState) :
    GraphState × List NodeTag :=
  let fuel := (mR - s.numberOfRounds).toNat + 1
  let r := debateLoop mR oracle fuel s 0
  (moderatorNode r.1 (oracle r.2.2), r.2.1 ++ [.moderator])

/-- Generation failure raised by the external collaborator (a network or
provider failure, or a schema violation), carrying a message. -/
structure GenError where
  message : String
deriving Repr, DecidableEq

/-- Embedding of `proNode` under the exception flow of the source: the
`invoke` call (line 255) sits outside any `try`, so a raised generation
error leaves the function before any state update; only the confidence
conversion is guarded, inside `normalize_confidence`. -/
def proNodeE (s : GraphState) (gen : Except GenError AgentResponse) :
    Except GenError GraphState :=
  match gen with
  | .error e => .error e
  | .ok r => .ok (proNode s r)

/-- Embedding of `conNode` under the exception flow of the source (the
`invoke` call of line 296 is unguarded). -/
def conNodeE (s : GraphState) (gen : Except GenError AgentResponse) :
    Except GenError GraphState :=
  match gen with
  | .error e => .error e
  | .ok r => .ok (conNode s r)

/-- Embedding of `moderatorNode` under the exception flow of the source
(the `invoke` call of line 344 is unguarded). -/
def moderatorNodeE (s : GraphState) (gen : Except GenError AgentResponse) :
    Except GenError GraphState :=
  match gen with
  | .error e => .error e
  | .ok r => .ok (moderatorNode s r)

/-- Debate loop over a fallible oracle: the first failing generation call
aborts the whole loop with that error. -/
def debateLoopE (mR : Int) (oracle : Nat → Except GenError AgentResponse) :
    Nat → GraphState → Nat → Except GenError (GraphState × Nat)
  | 0, s, k => .ok (s, k)
  | fuel + 1, s, k =>
    match oracle k with
    | .error e => .error e
    | .ok rp =>
      let s1 := proNode s rp
      match oracle (k + 1) with
      | .error e => .error e
      | .ok rc =>
        let s2 := conNode s1 rc
        if mR ≤ s2.numberOfRounds then .ok (s2, k + 2)
        else debateLoopE mR oracle fuel s2 (k + 2)

/-- Modelled from the spec: `run_debate` over a fallible generation
collaborator; either the complete terminal state is returned or the first
generation error is propagated unchanged, with no partial result. -/
def runDebateE (mR : Int) (oracle : Nat → Except GenError AgentResponse)
    (s : GraphState) : Except GenError GraphState :=
  match debateLoopE mR oracle ((mR - s.numberOfRounds).toNat + 1) s 0 with
  | .error e => .error e
  | .ok (s2, k2) =>
    match oracle k2 with
    | .error e => .error e
    | .ok rm => .ok (moderatorNode s2 rm)

/-- Constant benign oracle used for concrete witnesses. -/
def constOracle : Nat → AgentResponse := fun _ => { answer := "", rawConf := none }

end ToImplement

/-- Suffix of the last `n` elements of a list (the value of the Python
slice `l[-n:]` whenever `n ≥ 1`). -/
def rtake {α : Type} (l : List α) (n : Nat) : List α :=
  l.drop (l.length - n)

theorem length_rtake {α : Type} (l : List α) (n : Nat) :
    (rtake l n).length = min n l.length := by
  simp only [rtake, List.length_drop]
  omega

theorem rtake_of_length_le {α : Type} {l : List α} {n : Nat}
    (h : l.length ≤ n) : rtake l n = l := by
  simp [rtake, Nat.sub_eq_zero_of_le h]

theorem rtake_append_rtake {α : Type} (l m : List α) (n : Nat) :
    rtake (rtake l n ++ m) n = rtake (l ++ m) n := by
  rcases le_or_lt l.length n with h | h
  · rw [rtake_of_length_le h]
  · simp only [rtake, List.length_append, List.length_drop,
      List.drop_append_eq_append_drop, List.drop_drop]
    congr 1
    · congr 1
      omega
    · congr 1
      omega

namespace ToImplement

theorem cap_memory_list_eq_rtake (l : List String) (cap : Nat) (h : 1 ≤ cap) :
    cap_memory_list l cap = rtake l cap := by
  by_cases hl : l = []
  · subst hl
    simp [cap_memory_list, rtake]
  · have hc : ¬ cap = 0 := by omega
    simp [cap_memory_list, pyslice_last, hl, hc, rtake]

/-- One bounded-memory update step as performed by `proNode` and `conNode`
(lines 264-267 and 304-306): append the snippet, then cap to the last
`MEMORY_CAP` entries. -/
def append_capped (store : List String) (item : String) : List String :=
  cap_memory_list (store ++ [item]) MEMORY_CAP

theorem foldl_append_capped (items : List String) :
    ∀ acc : List String, acc.length ≤ MEMORY_CAP →
      items.foldl append_capped acc = rtake (acc ++ items) MEMORY_CAP := by
  induction items with
  | nil =>
    intro acc h
    rw [List.foldl_nil, List.append_nil, rtake_of_length_le h]
  | cons i is ih =>
    intro acc h
    have hcap : 1 ≤ MEMORY_CAP := by decide
    have h1 : (append_capped acc i).length ≤ MEMORY_CAP := by
      rw [append_capped, cap_memory_list_eq_rtake _ _ hcap, length_rtake]
      omega
    rw [List.foldl_cons, ih _ h1, append_capped,
      cap_memory_list_eq_rtake _ _ hcap, rtake_append_rtake]
    congr 1
    simp

theorem clamp_eq_ite (x : ℚ) :
    max 0 (min 1 x) = if x < 0 then 0 else if 1 < x then 1 else x := by
  split_ifs with h1 h2
  · rw [min_eq_right (by linarith), max_eq_left (by linarith)]
  · rw [min_eq_left (by linarith), max_eq_right (by norm_num)]
  · rw [min_eq_right (by linarith), max_eq_right (by linarith)]

theorem normalize_confidence_mem (raw : Option ℚ) (fb : ℚ)
    (h0 : 0 ≤ fb) (h1 : fb ≤ 1) :
    0 ≤ normalize_confidence raw fb ∧ normalize_confidence raw fb ≤ 1 := by
  cases raw with
  | none => exact ⟨h0, h1⟩
  | some v =>
    refine ⟨le_max_left 0 _, max_le (by norm_num) ?_⟩
    exact min_le_left 1 v

theorem proNode_numberOfRounds (s : GraphState) (r : AgentResponse) :
    (proNode s r).numberOfRounds = s.numberOfRounds := rfl

theorem conNode_numberOfRounds (s : GraphState) (r : AgentResponse) :
    (conNode s r).numberOfRounds = s.numberOfRounds + 1 := rfl

theorem moderatorNode_numberOfRounds (s : GraphState) (r : AgentResponse) :
    (moderatorNode s r).numberOfRounds = s.numberOfRounds := rfl

end ToImplement

/-- C1 counterexample: the claim asserts that every round counter equal to
or exceeding `MAX_ROUNDS = 8` exits the loop, but the `condition` function
of `app.py` compares with equality, so a state whose counter is 9 is
routed back to the Pro node rather than to the Moderator. -/
theorem C1_app_equality_counterexample :
    App.condition { App.inputs with numberOfRounds := 9 } = "proNode"
    ∧ App.condition { App.inputs with numberOfRounds := 9 } ≠ "moderatorNode"
    ∧ ToImplement.MAX_ROUNDS ≤ (9 : Int) := by
  refine ⟨rfl, ?_, by decide⟩
  decide

/-- C1 amended: the `condition` of `To_Implement.py` routes to the
Moderator exactly when the round counter is at least `MAX_ROUNDS` (which
is 8) and back to the Pro node exactly when it is strictly below; the
`condition` of the `app.py` prototype instead routes to the Moderator
exactly when the counter equals 8, so counters strictly above 8 are routed
back to the Pro node there. -/
theorem C1_amended_condition_routing (s : ToImplement.GraphState)
    (t : App.GraphState) :
    (ToImplement.condition s = "moderatorNode"
        ↔ ToImplement.MAX_ROUNDS ≤ s.numberOfRounds)
    ∧ (ToImplement.condition s = "proNode"
        ↔ s.numberOfRounds < ToImplement.MAX_ROUNDS)
    ∧ ToImplement.MAX_ROUNDS = 8
    ∧ (App.condition t = "moderatorNode" ↔ t.numberOfRounds = 8)
    ∧ (App.condition t = "proNode" ↔ t.numberOfRounds ≠ 8) := by
  have hne : ("proNode" : String) ≠ "moderatorNode" := by decide
  refine ⟨?_, ?_, rfl, ?_, ?_⟩
  · unfold ToImplement.condition
    split_ifs with h
    · simp [h]
    · simp [hne, h]
  · unfold ToImplement.condition
    split_ifs with h
    · simp [hne.symm, not_lt.mpr h]
    · simp [lt_of_not_le h]
  · unfold App.condition
    split_ifs with h
    · simp [h]
    · simp [hne, h]
  · unfold App.condition
    split_ifs with h
    · simp [hne.symm, h]
    · simp [h]

/-- C3: starting from any state, applying any sequence of turns leaves the
round counter equal to its initial value plus the number of Con turns in
the sequence (so from a fresh state with counter 0 it equals exactly the
number of completed Con turns); a single Con turn increments it by exactly
1 and Pro and Moderator turns leave it unchanged. -/
theorem C3_round_counter_counts_con_turns (turns : List ToImplement.Turn)
    (s : ToImplement.GraphState) (r : ToImplement.AgentResponse) :
    (turns.foldl ToImplement.applyTurn s).numberOfRounds
        = s.numberOfRounds + (turns.countP ToImplement.Turn.isCon : Int)
    ∧ (ToImplement.conNode s r).numberOfRounds = s.numberOfRounds + 1
    ∧ (ToImplement.proNode s r).numberOfRounds = s.numberOfRounds
    ∧ (ToImplement.moderatorNode s r).numberOfRounds = s.numberOfRounds := by
  refine ⟨?_, rfl, rfl, rfl⟩
  induction turns generalizing s with
  | nil => simp
  | cons t ts ih =>
    cases t with
    | pro r0 =>
      rw [List.foldl_cons, ih]
      simp [ToImplement.applyTurn, ToImplement.proNode_numberOfRounds,
        List.countP_cons, ToImplement.Turn.isCon]
    | con r0 =>
      rw [List.foldl_cons, ih]
      simp only [ToImplement.applyTurn, ToImplement.conNode_numberOfRounds,
        List.countP_cons, ToImplement.Turn.isCon]
      push_cast
      ring
    | moderator r0 =>
      rw [List.foldl_cons, ih]
      simp [ToImplement.applyTurn, ToImplement.moderatorNode_numberOfRounds,
        List.countP_cons, ToImplement.Turn.isCon]

/-- C4: for every state and response, when the raw confidence converts to
a number `x` the stored confidence is `x` clamped into `[0, 1]` (values
below 0 become 0, values above 1 become 1), and when the conversion fails
the stored confidence is the per-role fallback: 0.75 for Pro, 0.7 for
Con, 0.8 for the Moderator.  The repairing functions are total, so a
malformed confidence never aborts a turn. -/
theorem C4_confidence_normalization (s : ToImplement.GraphState)
    (ans : String) (x : ℚ) :
    ((ToImplement.proNode s ⟨ans, some x⟩).pro_confidence
        = if x < 0 then 0 else if 1 < x then 1 else x)
    ∧ (ToImplement.proNode s ⟨ans, none⟩).pro_confidence = 0.75
    ∧ ((ToImplement.conNode s ⟨ans, some x⟩).con_confidence
        = if x < 0 then 0 else if 1 < x then 1 else x)
    ∧ (ToImplement.conNode s ⟨ans, none⟩).con_confidence = 0.7
    ∧ ((ToImplement.moderatorNode s ⟨ans, some x⟩).final_confidence
        = if x < 0 then 0 else if 1 < x then 1 else x)
    ∧ (ToImplement.moderatorNode s ⟨ans, none⟩).final_confidence = 0.8 := by
  refine ⟨?_, rfl, ?_, rfl, ?_, rfl⟩ <;>
    simpa [ToImplement.proNode, ToImplement.conNode, ToImplement.moderatorNode,
      ToImplement.normalize_confidence] using ToImplement.clamp_eq_ite x

/-- C10: `cap_memory_list` with `cap = 0` returns the whole input list
(the Python slice `[-0:]` is `[0:]`), performing no truncation; for every
`cap ≥ 1` it returns exactly the suffix of the last `min cap length`
items. -/
theorem C10_cap_zero_slice (l : List String) (cap : Nat) (h : 1 ≤ cap) :
    ToImplement.cap_memory_list l 0 = l
    ∧ ToImplement.cap_memory_list l cap = rtake l cap
    ∧ (ToImplement.cap_memory_list l cap).length = min cap l.length := by
  refine ⟨?_, ToImplement.cap_memory_list_eq_rtake l cap h, ?_⟩
  · by_cases hl : l = [] <;>
      simp [ToImplement.cap_memory_list, ToImplement.pyslice_last, hl]
  · rw [ToImplement.cap_memory_list_eq_rtake l cap h, length_rtake]

namespace ToImplement

theorem debateLoop_exact (mR : Int) (oracle : Nat → AgentResponse) :
    ∀ (d fuel : Nat) (s : GraphState) (k : Nat),
      1 ≤ d → d ≤ fuel → s.numberOfRounds + d = mR →
      ∃ s2, debateLoop mR oracle fuel s k
          = (s2, (List.replicate d [NodeTag.pro, NodeTag.con]).flatten, k + 2 * d)
        ∧ s2.numberOfRounds = mR := by
  intro d
  induction d with
  | zero =>
    intro fuel s k h1
    exact absurd h1 (by omega)
  | succ d ih =>
    intro fuel s k _ h2 h3
    cases fuel with
    | zero => exact absurd h2 (by omega)
    | succ fuel =>
      have hs2 : (conNode (proNode s (oracle k)) (oracle (k + 1))).numberOfRounds
          = s.numberOfRounds + 1 := rfl
      by_cases hd : d = 0
      · subst hd
        have hcond : mR ≤ (conNode (proNode s (oracle k)) (oracle (k + 1))).numberOfRounds := by
          rw [hs2]
          push_cast at h3
          omega
        refine ⟨conNode (proNode s (oracle k)) (oracle (k + 1)), ?_, ?_⟩
        · simp only [debateLoop, if_pos hcond]
          norm_num
        · rw [hs2]
          push_cast at h3
          omega
      · have hcond : ¬ mR ≤ (conNode (proNode s (oracle k)) (oracle (k + 1))).numberOfRounds := by
          rw [hs2]
          push_cast at h3
          omega
        obtain ⟨s3, heq, hcnt⟩ :=
          ih fuel (conNode (proNode s (oracle k)) (oracle (k + 1))) (k + 2)
            (by omega) (by omega)
            (by
              rw [hs2]
              push_cast at h3 ⊢
              omega)
        refine ⟨s3, ?_, hcnt⟩
        have harith : k + 2 + 2 * d = k + 2 * (d + 1) := by ring
        simp only [debateLoop, if_neg hcond, heq, List.replicate_succ,
          List.flatten_cons, List.cons_append, List.nil_append, harith]

theorem exchange_trace_counts (n : Nat) :
    ((List.replicate n [NodeTag.pro, NodeTag.con]).flatten).count NodeTag.pro = n
    ∧ ((List.replicate n [NodeTag.pro, NodeTag.con]).flatten).count NodeTag.con = n
    ∧ ((List.replicate n [NodeTag.pro, NodeTag.con]).flatten).count NodeTag.moderator = 0
    ∧ ((List.replicate n [NodeTag.pro, NodeTag.con]).flatten).length = 2 * n := by
  induction n with
  | zero => simp
  | succ n ih =>
    obtain ⟨h1, h2, h3, h4⟩ := ih
    have t1 : (NodeTag.pro == NodeTag.pro) = true := by decide
    have t2 : (NodeTag.pro == NodeTag.con) = false := by decide
    have t3 : (NodeTag.con == NodeTag.pro) = false := by decide
    have t4 : (NodeTag.con == NodeTag.con) = true := by decide
    have t5 : (NodeTag.moderator == NodeTag.pro) = false := by decide
    have t6 : (NodeTag.moderator == NodeTag.con) = false := by decide
    refine ⟨?_, ?_, ?_, ?_⟩ <;>
      · simp [List.replicate_succ, List.count_cons, t1, t2, t3, t4, t5, t6,
          h1, h2, h3, h4, Nat.mul_succ]
        try omega

end ToImplement

/-- C2 counterexample: with a zero round budget the claim predicts zero
exchanges before the single Moderator turn, but the conditional edge is
only evaluated after a Con turn, so one full Pro and Con exchange still
runs: the executed node trace is Pro, Con, Moderator rather than just
Moderator. -/
theorem C2_zero_rounds_counterexample :
    (ToImplement.runDebate 0 ToImplement.constOracle ToImplement.initial_state).2
      = [ToImplement.NodeTag.pro, ToImplement.NodeTag.con, ToImplement.NodeTag.moderator]
    ∧ [ToImplement.NodeTag.pro, ToImplement.NodeTag.con, ToImplement.NodeTag.moderator]
      ≠ ([ToImplement.NodeTag.moderator] : List ToImplement.NodeTag) := by
  exact ⟨rfl, by decide⟩

/-- C2 amended: for every round budget `max_rounds ≥ 1`, a debate started
from a fresh state with round counter 0 performs exactly `max_rounds` Pro
and Con exchanges (so `2 * max_rounds` agent turns), then exactly one
Moderator turn, and terminates, never running an additional exchange once
the limit is reached; for `max_rounds = 0` one exchange still runs before
the first termination check (the check only happens after a Con turn). -/
theorem C2_amended_exact_exchanges (m : Nat)
    (oracle : Nat → ToImplement.AgentResponse) (s0 : ToImplement.GraphState)
    (hm : 1 ≤ m) (h0 : s0.numberOfRounds = 0) :
    (ToImplement.runDebate (m : Int) oracle s0).2
        = (List.replicate m [ToImplement.NodeTag.pro, ToImplement.NodeTag.con]).flatten
            ++ [ToImplement.NodeTag.moderator]
    ∧ (ToImplement.runDebate (m : Int) oracle s0).2.count ToImplement.NodeTag.pro = m
    ∧ (ToImplement.runDebate (m : Int) oracle s0).2.count ToImplement.NodeTag.con = m
    ∧ (ToImplement.runDebate (m : Int) oracle s0).2.count ToImplement.NodeTag.moderator = 1
    ∧ (ToImplement.runDebate (m : Int) oracle s0).2.length = 2 * m + 1 := by
  obtain ⟨s2, heq, hcnt⟩ :=
    ToImplement.debateLoop_exact (m : Int) oracle m
      (((m : Int) - s0.numberOfRounds).toNat + 1) s0 0
      hm
      (by rw [h0]; simp)
      (by rw [h0]; simp)
  have hrun : ToImplement.runDebate (m : Int) oracle s0
      = (ToImplement.moderatorNode s2 (oracle (0 + 2 * m)),
         (List.replicate m [ToImplement.NodeTag.pro, ToImplement.NodeTag.con]).flatten
           ++ [ToImplement.NodeTag.moderator]) := by
    simp only [ToImplement.runDebate, heq]
  obtain ⟨c1, c2, c3, c4⟩ := ToImplement.exchange_trace_counts m
  have t2 : (ToImplement.NodeTag.pro == ToImplement.NodeTag.moderator) = false := by decide
  have t3 : (ToImplement.NodeTag.con == ToImplement.NodeTag.moderator) = false := by decide
  have t4 : (ToImplement.NodeTag.moderator == ToImplement.NodeTag.moderator) = true := by decide
  rw [hrun]
  refine ⟨rfl, ?_, ?_, ?_, ?_⟩ <;>
    simp [List.count_append, List.count_cons, t2, t3, t4, c1, c2, c3, c4]

/-- C2 amended witness: concrete run with budget 3, the constant oracle
and the initial state of the main block. -/
theorem C2_amended_exact_exchanges_witness :
    1 ≤ 3 ∧ ToImplement.initial_state.numberOfRounds = 0
    ∧ ((ToImplement.runDebate ((3 : Nat) : Int) ToImplement.constOracle ToImplement.initial_state).2
        = (List.replicate 3 [ToImplement.NodeTag.pro, ToImplement.NodeTag.con]).flatten
            ++ [ToImplement.NodeTag.moderator]
      ∧ (ToImplement.runDebate ((3 : Nat) : Int) ToImplement.constOracle ToImplement.initial_state).2.count
          ToImplement.NodeTag.pro = 3
      ∧ (ToImplement.runDebate ((3 : Nat) : Int) ToImplement.constOracle ToImplement.initial_state).2.count
          ToImplement.NodeTag.con = 3
      ∧ (ToImplement.runDebate ((3 : Nat) : Int) ToImplement.constOracle ToImplement.initial_state).2.count
          ToImplement.NodeTag.moderator = 1
      ∧ (ToImplement.runDebate ((3 : Nat) : Int) ToImplement.constOracle ToImplement.initial_state).2.length
          = 2 * 3 + 1) :=
  ⟨by decide, rfl,
    C2_amended_exact_exchanges 3 ToImplement.constOracle ToImplement.initial_state
      (by decide) rfl⟩

namespace ToImplement

/-- Bounds invariant of the spec: all three confidence fields of the state
lie in the closed interval from 0 to 1. -/
def confInvariant (s : GraphState) : Prop :=
  (0 ≤ s.pro_confidence ∧ s.pro_confidence ≤ 1)
  ∧ (0 ≤ s.con_confidence ∧ s.con_confidence ≤ 1)
  ∧ (0 ≤ s.final_confidence ∧ s.final_confidence ≤ 1)

instance (s : GraphState) : Decidable (confInvariant s) := by
  unfold confInvariant
  infer_instance

/-- Oracle whose every generation call fails, used for witnesses. -/
def failOracle : Nat → Except GenError AgentResponse :=
  fun _ => .error { message := "boom" }

end ToImplement

/-- C5 counterexample: the app.py prototype stores reported confidences
verbatim.  Its moderator turn writes the unclamped float confidence, so
the reported value 2 is written as is and the stored final confidence
exceeds 1; its Pro turn likewise stores the raw string field of the
structured output with no numeric interpretation at all. -/
theorem C5_app_unclamped_counterexample :
    (App.moderatorNode App.inputs { answer := "final", conf := 2 }).final_confidence = 2
    ∧ ¬ ((App.moderatorNode App.inputs { answer := "final", conf := 2 }).final_confidence ≤ 1)
    ∧ (App.proNode App.inputs { answer := "a", conf := "very high" }).pro_confidence
        = "very high" := by
  exact ⟨rfl, by decide, rfl⟩

/-- C5 amended: in `To_Implement.py` every confidence field written by a
turn lies in [0, 1]: if all confidence fields of a state satisfy the
bounds, they still do after any Pro turn, any Con turn and any Moderator
turn, whatever the collaborator responds.  In the `app.py` prototype the
confidences are stored verbatim as reported (the Pro and Con fields as raw
strings, the moderator float unclamped), so values outside [0, 1] can be
written there. -/
theorem C5_amended_confidence_invariant (s : ToImplement.GraphState)
    (rp rc rm : ToImplement.AgentResponse)
    (h : ToImplement.confInvariant s) :
    ToImplement.confInvariant (ToImplement.proNode s rp)
    ∧ ToImplement.confInvariant (ToImplement.conNode s rc)
    ∧ ToImplement.confInvariant (ToImplement.moderatorNode s rm) := by
  obtain ⟨hp, hc, hf⟩ := h
  refine ⟨⟨?_, hc, hf⟩, ⟨hp, ?_, hf⟩, ⟨hp, hc, ?_⟩⟩
  · exact ToImplement.normalize_confidence_mem rp.rawConf 0.75 (by norm_num) (by norm_num)
  · exact ToImplement.normalize_confidence_mem rc.rawConf 0.7 (by norm_num) (by norm_num)
  · exact ToImplement.normalize_confidence_mem rm.rawConf 0.8 (by norm_num) (by norm_num)

/-- C5 amended witness: concrete instance at the initial state with one
numeric, one out-of-range and one malformed response. -/
theorem C5_amended_confidence_invariant_witness :
    ToImplement.confInvariant ToImplement.initial_state
    ∧ (ToImplement.confInvariant
          (ToImplement.proNode ToImplement.initial_state { answer := "a", rawConf := some 2 })
      ∧ ToImplement.confInvariant
          (ToImplement.conNode ToImplement.initial_state { answer := "b", rawConf := some (-1) })
      ∧ ToImplement.confInvariant
          (ToImplement.moderatorNode ToImplement.initial_state { answer := "c", rawConf := none })) :=
  ⟨by decide,
    C5_amended_confidence_invariant ToImplement.initial_state
      { answer := "a", rawConf := some 2 } { answer := "b", rawConf := some (-1) }
      { answer := "c", rawConf := none } (by decide)⟩

/-- C6: folding capped appends from the empty store keeps exactly the last
`min MEMORY_CAP length` appended items in their original relative order
(for more than `MEMORY_CAP = 8` appends this is length exactly 8 with the
oldest evicted, for at most 8 appends it is all of them), and the Pro and
Con turns update their memories by exactly this capped append of the
trimmed argument snippet. -/
theorem C6_bounded_memory_store (items : List String)
    (s : ToImplement.GraphState) (r : ToImplement.AgentResponse) :
    items.foldl ToImplement.append_capped []
        = items.drop (items.length - ToImplement.MEMORY_CAP)
    ∧ (items.foldl ToImplement.append_capped []).length
        = min ToImplement.MEMORY_CAP items.length
    ∧ ToImplement.MEMORY_CAP = 8
    ∧ (ToImplement.proNode s r).pro_memory
        = ToImplement.append_capped s.pro_memory r.answer.trim
    ∧ (ToImplement.conNode s r).con_memory
        = ToImplement.append_capped s.con_memory r.answer.trim := by
  have h := ToImplement.foldl_append_capped items [] (by decide)
  rw [List.nil_append] at h
  refine ⟨h, ?_, rfl, rfl, rfl⟩
  rw [h, length_rtake]

/-- C7: a Con turn appends to `debate_history` exactly one summary entry
of the fixed format tagging the just-incremented round number and
truncating both the stored Pro argument and the trimmed new Con argument
to their first 180 characters; the history is capped at 64 entries, and
neither a Pro turn nor a Moderator turn touches `debate_history`. -/
theorem C7_round_summary_history (s : ToImplement.GraphState)
    (rp rc rm : ToImplement.AgentResponse) :
    (ToImplement.conNode s rc).debate_history
        = ToImplement.cap_memory_list (s.debate_history
            ++ [ToImplement.summarize_round_summary s.pro_answer rc.answer.trim
                  (s.numberOfRounds + 1)]) 64
    ∧ ToImplement.summarize_round_summary s.pro_answer rc.answer.trim (s.numberOfRounds + 1)
        = "Round " ++ toString (s.numberOfRounds + 1) ++ ": Pro -> "
            ++ s.pro_answer.take 180 ++ " | Con -> " ++ rc.answer.trim.take 180
    ∧ (ToImplement.conNode s rc).numberOfRounds = s.numberOfRounds + 1
    ∧ (ToImplement.conNode s rc).debate_history.length
        = min 64 (s.debate_history.length + 1)
    ∧ (ToImplement.proNode s rp).debate_history = s.debate_history
    ∧ (ToImplement.moderatorNode s rm).debate_history = s.debate_history := by
  refine ⟨rfl, rfl, rfl, ?_, rfl, rfl⟩
  show (ToImplement.cap_memory_list (s.debate_history
      ++ [ToImplement.summarize_round_summary s.pro_answer rc.answer.trim
            (s.numberOfRounds + 1)]) 64).length
    = min 64 (s.debate_history.length + 1)
  rw [ToImplement.cap_memory_list_eq_rtake _ _ (by norm_num), length_rtake,
    List.length_append, List.length_singleton]

/-- C8 counterexample: on the first Pro turn of `app.py` (the initial
inputs have an empty `con_challenge`), the rendered request interpolates
the empty string for the last opposing challenge, not the "(none)"
sentinel. -/
theorem C8_app_empty_interpolation :
    App.inputs.con_challenge = ""
    ∧ (App.pro_prompt_inputs App.inputs).last_con = ""
    ∧ (App.pro_prompt_inputs App.inputs).last_con ≠ "(none)" := by
  exact ⟨rfl, rfl, by decide⟩

/-- C8 amended: in `To_Implement.py`, a Pro turn taken when no Con output
exists yet (empty `con_challenge`) renders the "(none)" sentinel in place
of the opposing challenge rather than the empty string, and an empty own
memory list is rendered as "(none)" as well; the rendering and the turn
are total, so nothing crashes.  The `app.py` prototype instead
interpolates the empty challenge string verbatim. -/
theorem C8_amended_none_sentinel (s : ToImplement.GraphState)
    (h1 : s.con_challenge = "") (h2 : s.pro_memory = []) :
    (ToImplement.pro_prompt_inputs s).last_con = "(none)"
    ∧ (ToImplement.pro_prompt_inputs s).pro_memory = "(none)"
    ∧ (ToImplement.pro_prompt_inputs s).last_con ≠ "" := by
  refine ⟨?_, ?_, ?_⟩ <;> simp [ToImplement.pro_prompt_inputs, h1, h2]

/-- C8 amended witness: concrete instance at the initial state, whose
challenge field is empty and whose memory is empty. -/
theorem C8_amended_none_sentinel_witness :
    ToImplement.initial_state.con_challenge = ""
    ∧ ToImplement.initial_state.pro_memory = []
    ∧ ((ToImplement.pro_prompt_inputs ToImplement.initial_state).last_con = "(none)"
      ∧ (ToImplement.pro_prompt_inputs ToImplement.initial_state).pro_memory = "(none)"
      ∧ (ToImplement.pro_prompt_inputs ToImplement.initial_state).last_con ≠ "") :=
  ⟨rfl, rfl, C8_amended_none_sentinel ToImplement.initial_state rfl rfl⟩

/-- C9: a generation failure in any turn is never caught locally: each of
the three turn functions maps a failing generation to that same failure
(substituting no default text and producing no state update), a
successful generation is never turned into a failure, and a failure at
the next consultation point aborts the whole loop and the whole
spec-modelled `run_debate`, which then returns no partial result. -/
theorem C9_generation_error_propagation (s s0 : ToImplement.GraphState)
    (e : ToImplement.GenError) (r : ToImplement.AgentResponse) (mR : Int)
    (oracle : Nat → Except ToImplement.GenError ToImplement.AgentResponse)
    (fuel k : Nat)
    (hk : oracle k = .error e) (h0 : oracle 0 = .error e) :
    ToImplement.proNodeE s (.error e) = .error e
    ∧ ToImplement.conNodeE s (.error e) = .error e
    ∧ ToImplement.moderatorNodeE s (.error e) = .error e
    ∧ ToImplement.proNodeE s (.ok r) = .ok (ToImplement.proNode s r)
    ∧ ToImplement.conNodeE s (.ok r) = .ok (ToImplement.conNode s r)
    ∧ ToImplement.moderatorNodeE s (.ok r) = .ok (ToImplement.moderatorNode s r)
    ∧ ToImplement.debateLoopE mR oracle (fuel + 1) s0 k = .error e
    ∧ ToImplement.runDebateE mR oracle s0 = .error e := by
  have hloop : ToImplement.debateLoopE mR oracle
      ((mR - s0.numberOfRounds).toNat + 1) s0 0 = .error e := by
    simp only [ToImplement.debateLoopE, h0]
  refine ⟨rfl, rfl, rfl, rfl, rfl, rfl, ?_, ?_⟩
  · simp only [ToImplement.debateLoopE, hk]
  · simp only [ToImplement.runDebateE, hloop]

/-- C9 witness: concrete instance with an oracle whose very first call
fails; the whole run returns exactly that error. -/
theorem C9_generation_error_propagation_witness :
    ToImplement.failOracle 0 = .error { message := "boom" }
    ∧ (ToImplement.proNodeE ToImplement.initial_state (.error { message := "boom" })
          = .error { message := "boom" }
      ∧ ToImplement.conNodeE ToImplement.initial_state (.error { message := "boom" })
          = .error { message := "boom" }
      ∧ ToImplement.moderatorNodeE ToImplement.initial_state (.error { message := "boom" })
          = .error { message := "boom" }
      ∧ ToImplement.proNodeE ToImplement.initial_state (.ok { answer := "", rawConf := none })
          = .ok (ToImplement.proNode ToImplement.initial_state { answer := "", rawConf := none })
      ∧ ToImplement.conNodeE ToImplement.initial_state (.ok { answer := "", rawConf := none })
          = .ok (ToImplement.conNode ToImplement.initial_state { answer := "", rawConf := none })
      ∧ ToImplement.moderatorNodeE ToImplement.initial_state (.ok { answer := "", rawConf := none })
          = .ok (ToImplement.moderatorNode ToImplement.initial_state { answer := "", rawConf := none })
      ∧ ToImplement.debateLoopE 8 ToImplement.failOracle (0 + 1) ToImplement.initial_state 0
          = .error { message := "boom" }
      ∧ ToImplement.runDebateE 8 ToImplement.failOracle ToImplement.initial_state
          = .error { message := "boom" }) :=
  ⟨rfl,
    C9_generation_error_propagation ToImplement.initial_state ToImplement.initial_state
      { message := "boom" } { answer := "", rawConf := none } 8
      ToImplement.failOracle 0 0 rfl rfl⟩

/-- C10 witness: concrete instance at a three-element list and cap 2. -/
theorem C10_cap_zero_slice_witness :
    1 ≤ 2
    ∧ (ToImplement.cap_memory_list ["a", "b", "c"] 0 = ["a", "b", "c"]
      ∧ ToImplement.cap_memory_list ["a", "b", "c"] 2 = rtake ["a", "b", "c"] 2
      ∧ (ToImplement.cap_memory_list ["a", "b", "c"] 2).length
          = min 2 (List.length ["a", "b", "c"])) :=
  ⟨by decide, C10_cap_zero_slice ["a", "b", "c"] 2 (by decide)⟩
